import Mathlib

/-!
# Verification of the reTerminal OAuth token lifecycle and calendar cache

Shallow embedding, in Lean 4, of the credential/caching subsystem of the
reTerminal dashboard:

* `lib/oauth-client.ts` — token storage (`storeTokens`, `loadTokens`),
  staleness check (`isTokenExpired`), refresh-with-retry
  (`refreshTokensIfNeeded`), and the authenticated-client entry point
  (`getOAuthCalendarClient`).
* `lib/calendar-cache.ts` — the Redis response cache
  (`getCachedCalendar`, `setCachedCalendar`, `generateCacheKey`).
* `api/static-calendar-enhanced.ts` — the agenda entry point
  (`getEventsForDate`) used by the HTTP handler.

External effects are made explicit:

* the authorization server's refresh endpoint is an oracle
  `Nat → Except UpstreamError ServerCredentials` mapping the attempt
  number (1-based) to that attempt's outcome;
* wall-clock time (`Date.now()`) is a parameter `now : Int`
  (milliseconds since epoch);
* the Redis backing store is passed in as explicit state / read results;
* each operation returns, along with its result, a record of the
  observable effects it performed (refresh attempts, sleeps, store
  writes, upstream calls).

JavaScript `a || b` on strings and numbers (falsy on `undefined`, `""`,
`0`) is modelled by `jsOr` / `jsOrInt`; `!x` on an optional string by
`jsFalsyStr`. Timestamps are `Int`, mirroring JS `number` arithmetic on
millisecond epochs (the values in play are far below 2^53, where JS
number arithmetic is exact).
-/

set_option autoImplicit false

namespace ReTerminal

/-! ## JavaScript value helpers -/

/-- JavaScript `v || d` for an optional string: `undefined` and `""` are
falsy and select the default. -/
def jsOr (v : Option String) (d : String) : String :=
  match v with
  | none => d
  | some s => if s = "" then d else s

/-- JavaScript `v || d` for an optional number: `undefined` and `0` are
falsy and select the default. -/
def jsOrInt (v : Option Int) (d : Int) : Int :=
  match v with
  | none => d
  | some n => if n = 0 then d else n

/-- JavaScript `!v` for an optional string: true exactly on `undefined`
and `""`. -/
def jsFalsyStr (v : Option String) : Bool :=
  match v with
  | none => true
  | some s => s = ""

/-- Does `pat` occur at the head of `l`? (Helper for `containsSub`.) -/
def subAt : List Char → List Char → Bool
  | [], _ => true
  | _ :: _, [] => false
  | a :: as, b :: bs => a == b && subAt as bs

/-- Does `pat` occur anywhere in `l`? -/
def containsSub (l pat : List Char) : Bool :=
  subAt pat l ||
    match l with
    | [] => false
    | _ :: t => containsSub t pat

/-- JavaScript `s.includes(pat)`: substring test. -/
def strIncludes (s pat : String) : Bool :=
  containsSub s.toList pat.toList

/-! ## Data model (`lib/types.ts`)

`OAuthTokens.expiry_date` is declared `number` in TypeScript, but the
runtime guards against it being absent (`!tokens.expiry_date`), so the
embedding uses `Option Int`: `none` is an absent field, `some 0` a zero
one — both falsy in JS. -/

/-- `OAuthTokens` (`lib/types.ts`): the stored credential record. -/
structure OAuthTokens where
  access_token : String
  refresh_token : String
  scope : String
  token_type : String
  expiry_date : Option Int
  deriving Repr, DecidableEq

/-- `TokenStorageData` (`lib/types.ts`): what `storeTokens` writes under
the Redis key `google_oauth_tokens`. -/
structure TokenStorageData where
  tokens : OAuthTokens
  updatedAt : String
  calendarId : String
  deriving Repr, DecidableEq

/-- The (partial) credential fields in the authorization server's
response to `refreshAccessToken` — every field optional, as in the
`googleapis` `Credentials` type. -/
structure ServerCredentials where
  access_token : Option String
  refresh_token : Option String
  scope : Option String
  token_type : Option String
  expiry_date : Option Int
  deriving Repr, DecidableEq

/-- A failure from the refresh endpoint as `refreshTokensIfNeeded`
observes it: `error?.message` and `error?.response?.data?.error`. -/
structure UpstreamError where
  message : String
  responseDataError : Option String
  deriving Repr, DecidableEq

/-! ## Constants (`lib/oauth-client.ts` lines 10-12, `lib/calendar-cache.ts` lines 8-9) -/

def MAX_REFRESH_RETRIES : Nat := 3

def RETRY_DELAY_MS : Nat := 1000

/-- The 5-minute staleness buffer of `isTokenExpired`. -/
def bufferMs : Int := 5 * 60 * 1000

def CACHE_TTL_SECONDS : Nat := 300

/-- Source constant `CACHE_KEY_PREFIX` (`lib/calendar-cache.ts` line 9). -/
def CACHE_KEY_HEAD : String := "calendar_cache:"

/-! ## Token staleness and refresh (`lib/oauth-client.ts`) -/

/-- `isTokenExpired` (lines 100-108): absent expiry counts as expired;
otherwise stale iff `Date.now() >= expiry_date - bufferMs`.
(`!tokens.expiry_date` is also true on a zero expiry.) -/
def isTokenExpired (now : Int) (tokens : OAuthTokens) : Bool :=
  match tokens.expiry_date with
  | none => true
  | some e => if e = 0 then true else decide (now ≥ e - bufferMs)

/-- The invalid-grant test of line 151:
`error?.message?.includes('invalid_grant') ||
 error?.response?.data?.error === 'invalid_grant'`. -/
def isInvalidGrant (e : UpstreamError) : Bool :=
  strIncludes e.message "invalid_grant" || e.responseDataError == some "invalid_grant"

/-- Message of the error thrown on invalid grant (line 153). -/
def reauthRequiredMsg : String :=
  "OAuth refresh token is invalid. Please re-run: npm run oauth:setup"

/-- Message of the error thrown after retry exhaustion (line 167). -/
def refreshFailedMsg : String :=
  "Failed to refresh OAuth tokens after multiple attempts. Re-authorization may be required."

/-- The spec's error taxonomy for the refresh path, carrying the message
the source actually throws. -/
inductive OAuthError where
  | reauthorizationRequired (msg : String)
  | refreshFailed (msg : String)
  deriving Repr, DecidableEq

/-- The `refreshedTokens` record construction of lines 132-139: keep the
old `refresh_token`/`scope` unless the server returned a (truthy) new
one; default `token_type` to `"Bearer"` and `expiry_date` to
`Date.now() + 3600 * 1000`. (`credentials.access_token!` is the
source's non-null assertion; an absent one becomes `""`.) -/
def buildRefreshedTokens (tokens : OAuthTokens) (now : Int)
    (credentials : ServerCredentials) : OAuthTokens :=
  { access_token := credentials.access_token.getD ""
    refresh_token := jsOr credentials.refresh_token tokens.refresh_token
    scope := jsOr credentials.scope tokens.scope
    token_type := jsOr credentials.token_type "Bearer"
    expiry_date := some (jsOrInt credentials.expiry_date (now + 3600 * 1000)) }

deriving instance DecidableEq for Except

/-- Result of one call to `refreshTokensIfNeeded`, with its observable
effects: `attempts` counts calls to the refresh endpoint, `delays` the
sleeps performed (ms, in order), `writes` the records passed to
`storeTokens`. -/
structure RefreshOutcome where
  result : Except OAuthError OAuthTokens
  attempts : Nat
  delays : List Nat
  writes : List OAuthTokens
  deriving Repr, DecidableEq

/-- The retry loop of `refreshTokensIfNeeded` (lines 127-167).
`attempt` is the 1-based loop counter; `fuel` the number of attempts
still allowed including the current one (`MAX_REFRESH_RETRIES` at
entry, so `fuel = 0` inside the loop body marks the final attempt,
after which the loop falls through to the final throw). On success the
refreshed record is stored and returned; on an invalid-grant error the
loop throws immediately; otherwise it sleeps
`RETRY_DELAY_MS * 2 ^ (attempt - 1)` ms and retries. -/
def refreshLoop (tokens : OAuthTokens) (now : Int)
    (oracle : Nat → Except UpstreamError ServerCredentials) :
    Nat → Nat → RefreshOutcome
  | _, 0 =>
    { result := .error (.refreshFailed refreshFailedMsg)
      attempts := 0, delays := [], writes := [] }
  | attempt, fuel + 1 =>
    match oracle attempt with
    | .ok credentials =>
      let refreshed := buildRefreshedTokens tokens now credentials
      { result := .ok refreshed, attempts := 1, delays := [], writes := [refreshed] }
    | .error e =>
      if isInvalidGrant e then
        { result := .error (.reauthorizationRequired reauthRequiredMsg)
          attempts := 1, delays := [], writes := [] }
      else if fuel = 0 then
        { result := .error (.refreshFailed refreshFailedMsg)
          attempts := 1, delays := [], writes := [] }
      else
        let delay := RETRY_DELAY_MS * 2 ^ (attempt - 1)
        let rest := refreshLoop tokens now oracle (attempt + 1) fuel
        { result := rest.result, attempts := rest.attempts + 1
          delays := delay :: rest.delays, writes := rest.writes }

/-- `refreshTokensIfNeeded` (lines 111-168): return the stored record
untouched when it is not stale, else run the retry loop. -/
def refreshTokensIfNeeded (tokens : OAuthTokens) (now : Int)
    (oracle : Nat → Except UpstreamError ServerCredentials) : RefreshOutcome :=
  if isTokenExpired now tokens then
    refreshLoop tokens now oracle 1 MAX_REFRESH_RETRIES
  else
    { result := .ok tokens, attempts := 0, delays := [], writes := [] }

/-! ## Token storage (`lib/oauth-client.ts` lines 54-97)

The Redis store holds at most one `TokenStorageData` under the key
`google_oauth_tokens`; its content is modelled as
`Option TokenStorageData`. -/

/-- The environment `storeTokens` reads: whether Redis credentials are
configured, the `GOOGLE_CALENDAR_ID` variable, and whether the
`redis.set` call will succeed on this invocation. -/
structure StoreEnv where
  redisConfigured : Bool
  calendarIdEnv : Option String
  setSucceeds : Bool
  deriving Repr, DecidableEq

/-- `storeTokens` (lines 78-97): fails loudly when Redis is
unconfigured or the `set` fails (store unchanged), else overwrites the
single record with the tokens stamped with `updatedAt` (the current ISO
time, a parameter here) and the active calendar id. Returns the thrown
error (if any) and the resulting store content. -/
def storeTokensRun (env : StoreEnv) (nowIso : String)
    (store : Option TokenStorageData) (tokens : OAuthTokens) :
    Option String × Option TokenStorageData :=
  if !env.redisConfigured then
    (some "Redis not configured", store)
  else
    let data : TokenStorageData :=
      { tokens := tokens, updatedAt := nowIso
        calendarId := jsOr env.calendarIdEnv "primary" }
    if env.setSucceeds then (none, some data)
    else (some "Error storing tokens", store)

/-- Result of a read from the Redis backing store: a value, absence, or
a thrown error. -/
inductive BackendReadResult (α : Type) where
  | found (v : Option α)
  | err (e : String)
  deriving Repr, DecidableEq

/-- `loadTokens` (lines 55-75): `null` when Redis is unconfigured, the
read errors, or no record is stored; the stored tokens otherwise. -/
def loadTokens (redisConfigured : Bool)
    (stored : BackendReadResult TokenStorageData) : Option OAuthTokens :=
  if !redisConfigured then none
  else
    match stored with
    | .found (some data) => some data.tokens
    | .found none => none
    | .err _ => none

/-! ## Response cache (`lib/calendar-cache.ts`) -/

/-- `generateCacheKey` (lines 67-69). -/
def generateCacheKey (calendarId date : String) : String :=
  calendarId ++ ":" ++ date

/-- `getCachedCalendar` (lines 27-45): `null` when Redis is
unconfigured; `redis.get` errors are caught and returned as `null`
(miss); a present value is returned as a hit. -/
def getCachedCalendar {α : Type} (configured : Bool)
    (backendGet : String → BackendReadResult α) (cacheKey : String) : Option α :=
  if !configured then none
  else
    match backendGet (CACHE_KEY_HEAD ++ cacheKey) with
    | .found (some cached) => some cached
    | .found none => none
    | .err _ => none

/-- Outcome of a cache write: the resulting store state, and the error
surfaced to the caller, if any. -/
structure CacheSetOutcome (σ : Type) where
  store : σ
  surfacedError : Option String
  deriving Repr, DecidableEq

/-- `setCachedCalendar` (lines 50-62): a no-op when Redis is
unconfigured; otherwise `redis.setex` with the fixed TTL, any error
caught and logged — never rethrown. `backendSetex` models the `setex`
call: the new store state on success, an error otherwise (store
unchanged). -/
def setCachedCalendar {α σ : Type} (configured : Bool)
    (backendSetex : String → Nat → α → Except String σ) (store : σ)
    (cacheKey : String) (data : α) : CacheSetOutcome σ :=
  if !configured then { store := store, surfacedError := none }
  else
    match backendSetex (CACHE_KEY_HEAD ++ cacheKey) CACHE_TTL_SECONDS data with
    | .ok s => { store := s, surfacedError := none }
    | .error _ => { store := store, surfacedError := none }

/-! ## Authenticated client (`lib/oauth-client.ts` lines 171-194) -/

/-- Message thrown by `getOAuthCalendarClient` when no tokens are
stored (line 176). -/
def tokensNotFoundMsg : String :=
  "OAuth tokens not found. Run the setup script: npm run oauth:setup"

/-- The message carried by a thrown refresh-path error. -/
def oauthErrorMessage : OAuthError → String
  | .reauthorizationRequired msg => msg
  | .refreshFailed msg => msg

/-- Result of `getOAuthCalendarClient`, with its observable effects.
`result` carries the tokens the returned Calendar client is
authenticated with. -/
structure ClientOutcome where
  result : Except String OAuthTokens
  credentialLookups : Nat
  refreshAttempts : Nat
  storeWrites : List OAuthTokens
  deriving Repr, DecidableEq

/-- `getOAuthCalendarClient` (lines 171-194): load tokens (one
credential lookup), throw when absent, else refresh if needed and build
the authenticated client from the resulting tokens. -/
def getOAuthCalendarClient (redisConfigured : Bool)
    (stored : BackendReadResult TokenStorageData) (now : Int)
    (oracle : Nat → Except UpstreamError ServerCredentials) : ClientOutcome :=
  match loadTokens redisConfigured stored with
  | none =>
    { result := .error tokensNotFoundMsg
      credentialLookups := 1, refreshAttempts := 0, storeWrites := [] }
  | some tokens =>
    let r := refreshTokensIfNeeded tokens now oracle
    match r.result with
    | .ok t =>
      { result := .ok t, credentialLookups := 1
        refreshAttempts := r.attempts, storeWrites := r.writes }
    | .error e =>
      { result := .error (oauthErrorMessage e), credentialLookups := 1
        refreshAttempts := r.attempts, storeWrites := r.writes }

/-! ## Agenda entry point (`api/static-calendar-enhanced.ts`) -/

/-- The `start`/`end` of an upstream Google Calendar event: either a
timed `dateTime` or an all-day `date`. -/
structure GcalEventTime where
  dateTime : Option String
  date : Option String
  deriving Repr, DecidableEq

/-- An upstream Google Calendar event, restricted to the fields
`getEventsForDate` reads. -/
structure GcalEvent where
  id : Option String
  summary : Option String
  start : Option GcalEventTime
  end_ : Option GcalEventTime
  location : Option String
  description : Option String
  attendees : Option (List String)
  status : Option String
  deriving Repr, DecidableEq

/-- The normalized `CalendarEvent` shape of
`api/static-calendar-enhanced.ts` lines 5-15. -/
structure CalendarEvent where
  id : String
  summary : String
  start : String
  end_ : String
  location : Option String
  allDay : Bool
  description : Option String
  attendees : Nat
  status : Option String
  deriving Repr, DecidableEq

/-- `CalendarResponse` (lines 17-20): the agenda payload. -/
structure CalendarResponse where
  events : List CalendarEvent
  date : String
  deriving Repr, DecidableEq

/-- The per-event normalization of lines 44-57: an event with no
(truthy) `start.dateTime` is all-day; `start`/`end` prefer the
`dateTime`, then the `date`, then `""`. -/
def normalizeEvent (event : GcalEvent) : CalendarEvent :=
  let isAllDay := jsFalsyStr (event.start.bind GcalEventTime.dateTime)
  { id := jsOr event.id ""
    summary := jsOr event.summary "No Title"
    start := jsOr (event.start.bind GcalEventTime.dateTime)
      (jsOr (event.start.bind GcalEventTime.date) "")
    end_ := jsOr (event.end_.bind GcalEventTime.dateTime)
      (jsOr (event.end_.bind GcalEventTime.date) "")
    location := event.location
    allDay := isAllDay
    description := event.description
    attendees := match event.attendees with
      | none => 0
      | some l => l.length
    status := event.status }

/-- Result of `getEventsForDate`, with counters for the observable
effects the claims speak about: response-cache reads, credential
lookups, and upstream `events.list` calls. -/
structure AgendaOutcome where
  response : Except String CalendarResponse
  cacheReads : Nat
  credentialLookups : Nat
  upstreamCalls : Nat
  deriving Repr, DecidableEq

/-- `getEventsForDate` (`api/static-calendar-enhanced.ts` lines 28-63):
obtain the authenticated client (credential lookup plus possible
refresh), then one upstream `events.list` call, then normalize. The
`cache` parameter is the response-cache state visible to the process;
the source of this function never consults it (no call to
`getCachedCalendar` or `setCachedCalendar` appears in the file), so the
embedding carries it only to record `cacheReads = 0`. `upstream` is the
outcome the `events.list` call would produce; `todayIST` is
`new Date().toLocaleDateString('en-CA', { timeZone: 'Asia/Kolkata' })`. -/
def getEventsForDate (cache : String → Option CalendarResponse)
    (redisConfigured : Bool) (stored : BackendReadResult TokenStorageData)
    (now : Int) (oracle : Nat → Except UpstreamError ServerCredentials)
    (upstream : Except String (List GcalEvent))
    (dateStr : Option String) (todayIST : String) : AgendaOutcome :=
  let _unusedCache := cache
  let client := getOAuthCalendarClient redisConfigured stored now oracle
  match client.result with
  | .error e =>
    { response := .error e, cacheReads := 0
      credentialLookups := client.credentialLookups, upstreamCalls := 0 }
  | .ok _tokens =>
    match upstream with
    | .error e =>
      { response := .error e, cacheReads := 0
        credentialLookups := client.credentialLookups, upstreamCalls := 1 }
    | .ok items =>
      { response := .ok
          { events := items.map normalizeEvent
            date := jsOr dateStr todayIST }
        cacheReads := 0
        credentialLookups := client.credentialLookups
        upstreamCalls := 1 }

/-! ## Concrete scenarios used to witness and refute the claims -/

/-- A stored credential that is stale at `now = 200000`
(expiry 400000 is within the 5-minute buffer). -/
def staleTokens : OAuthTokens :=
  { access_token := "at-old", refresh_token := "rt-orig", scope := "cal"
    token_type := "Bearer", expiry_date := some 400000 }

/-- A stored credential with a zero `expiry_date` (always stale). -/
def zeroExpiryTokens : OAuthTokens :=
  { access_token := "at-old", refresh_token := "rt-orig", scope := "cal"
    token_type := "Bearer", expiry_date := some 0 }

/-- A stored credential still valid for a long time at `now = 0`. -/
def freshTokens : OAuthTokens :=
  { access_token := "at", refresh_token := "rt", scope := "cal"
    token_type := "Bearer", expiry_date := some 1000000000 }

/-- A refresh endpoint that fails with the same transient network error
on every attempt. -/
def transientOracle : Nat → Except UpstreamError ServerCredentials :=
  fun _ => .error { message := "network timeout", responseDataError := none }

/-- A refresh endpoint that reports an invalid grant on every attempt. -/
def invalidGrantOracle : Nat → Except UpstreamError ServerCredentials :=
  fun _ => .error { message := "invalid_grant", responseDataError := some "invalid_grant" }

/-- A refresh endpoint that succeeds at once, returning a new access
token but no new refresh token and no expiry. -/
def successNoRotateOracle : Nat → Except UpstreamError ServerCredentials :=
  fun _ => .ok { access_token := some "at-new", refresh_token := none
                 scope := none, token_type := none, expiry_date := none }

/-- A refresh endpoint that succeeds at once with an expiry EARLIER
than the stored record's (400000): the server controls the new expiry. -/
def earlyExpiryOracle : Nat → Except UpstreamError ServerCredentials :=
  fun _ => .ok { access_token := some "at-new", refresh_token := none
                 scope := none, token_type := none, expiry_date := some 300000 }

/-- An oracle that is never reached (used where no refresh happens). -/
def unusedOracle : Nat → Except UpstreamError ServerCredentials :=
  fun _ => .error { message := "not invoked", responseDataError := none }

/-- The agenda payload sitting in the response cache in the C1
scenario. -/
def c1CachedPayload : CalendarResponse :=
  { events := [{ id := "e1", summary := "Standup"
                 start := "2026-01-26T09:00:00+05:30"
                 end_ := "2026-01-26T09:15:00+05:30"
                 location := none, allDay := false, description := none
                 attendees := 0, status := some "confirmed" }]
    date := "2026-01-26" }

/-- A response-cache state holding a non-expired entry for the account
`primary` and the date `2026-01-26`. -/
def c1Cache : String → Option CalendarResponse :=
  fun k =>
    if k = CACHE_KEY_HEAD ++ generateCacheKey "primary" "2026-01-26" then
      some c1CachedPayload
    else none

/-- The credential store content in the C1 scenario: a valid credential
is present. -/
def c1Stored : BackendReadResult TokenStorageData :=
  .found (some { tokens := freshTokens
                 updatedAt := "2026-01-25T00:00:00.000Z", calendarId := "primary" })

/-- The C1 run: `getEventsForDate "2026-01-26"` at `now = 0` with a
fresh cache entry present and the upstream returning no events. -/
def c1Run : AgendaOutcome :=
  getEventsForDate c1Cache true c1Stored 0 unusedOracle (.ok [])
    (some "2026-01-26") "2026-01-26"

/-! ## Helper lemmas on the refresh loop -/

/-- Inside the loop, at least one refresh attempt is made. -/
theorem refreshLoop_attempts_pos (tokens : OAuthTokens) (now : Int)
    (oracle : Nat → Except UpstreamError ServerCredentials)
    (attempt fuel : Nat) (hf : fuel ≠ 0) :
    1 ≤ (refreshLoop tokens now oracle attempt fuel).attempts := by
  cases fuel with
  | zero => exact absurd rfl hf
  | succ f =>
    rw [refreshLoop]
    cases h : oracle attempt with
    | ok credentials => simp
    | error e =>
      by_cases hig : isInvalidGrant e = true
      · simp [hig]
      · by_cases hf0 : f = 0
        · simp [hig, hf0]
        · simp [hig, hf0]

/-- One unfolding of the loop at an invalid-grant failure. -/
theorem refreshLoop_invalid_step (tokens : OAuthTokens) (now : Int)
    (oracle : Nat → Except UpstreamError ServerCredentials)
    (attempt fuel : Nat) (e : UpstreamError)
    (h : oracle attempt = .error e) (hig : isInvalidGrant e = true) :
    refreshLoop tokens now oracle attempt (fuel + 1) =
      { result := .error (.reauthorizationRequired reauthRequiredMsg)
        attempts := 1, delays := [], writes := [] } := by
  rw [refreshLoop, h]
  simp [hig]

/-- One unfolding of the loop at a transient failure on the final
allowed attempt. -/
theorem refreshLoop_transient_last (tokens : OAuthTokens) (now : Int)
    (oracle : Nat → Except UpstreamError ServerCredentials)
    (attempt : Nat) (e : UpstreamError)
    (h : oracle attempt = .error e) (hig : isInvalidGrant e = false) :
    refreshLoop tokens now oracle attempt 1 =
      { result := .error (.refreshFailed refreshFailedMsg)
        attempts := 1, delays := [], writes := [] } := by
  rw [refreshLoop, h]
  simp [hig]

/-- One unfolding of the loop at a transient failure with attempts left:
sleep `RETRY_DELAY_MS * 2 ^ (attempt - 1)` and retry. -/
theorem refreshLoop_transient_step (tokens : OAuthTokens) (now : Int)
    (oracle : Nat → Except UpstreamError ServerCredentials)
    (attempt fuel : Nat) (e : UpstreamError)
    (h : oracle attempt = .error e) (hig : isInvalidGrant e = false)
    (hf : fuel ≠ 0) :
    refreshLoop tokens now oracle attempt (fuel + 1) =
      { result := (refreshLoop tokens now oracle (attempt + 1) fuel).result
        attempts := (refreshLoop tokens now oracle (attempt + 1) fuel).attempts + 1
        delays := RETRY_DELAY_MS * 2 ^ (attempt - 1) ::
          (refreshLoop tokens now oracle (attempt + 1) fuel).delays
        writes := (refreshLoop tokens now oracle (attempt + 1) fuel).writes } := by
  rw [refreshLoop, h]
  simp [hig, hf]

/-- A successful loop result is the `buildRefreshedTokens` image of some
oracle response. -/
theorem refreshLoop_ok (tokens : OAuthTokens) (now : Int)
    (oracle : Nat → Except UpstreamError ServerCredentials)
    (attempt fuel : Nat) (r : OAuthTokens)
    (h : (refreshLoop tokens now oracle attempt fuel).result = .ok r) :
    ∃ k credentials, oracle k = .ok credentials ∧
      r = buildRefreshedTokens tokens now credentials := by
  induction fuel generalizing attempt with
  | zero => rw [refreshLoop] at h; exact absurd h (by simp)
  | succ f ih =>
    rw [refreshLoop] at h
    cases ho : oracle attempt with
    | ok credentials =>
      rw [ho] at h
      simp only [Except.ok.injEq] at h
      exact ⟨attempt, credentials, ho, h.symm⟩
    | error e =>
      rw [ho] at h
      by_cases hig : isInvalidGrant e = true
      · simp [hig] at h
      · by_cases hf0 : f = 0
        · simp [hig, hf0] at h
        · simp only [hig, hf0, if_neg, Bool.false_eq_true, if_false] at h
          exact ih (attempt + 1) h

/-- Every record the loop hands to `storeTokens` is the
`buildRefreshedTokens` image of some oracle response. -/
theorem refreshLoop_writes (tokens : OAuthTokens) (now : Int)
    (oracle : Nat → Except UpstreamError ServerCredentials)
    (attempt fuel : Nat) (w : OAuthTokens)
    (h : w ∈ (refreshLoop tokens now oracle attempt fuel).writes) :
    ∃ k credentials, oracle k = .ok credentials ∧
      w = buildRefreshedTokens tokens now credentials := by
  induction fuel generalizing attempt with
  | zero => rw [refreshLoop] at h; exact absurd h (by simp)
  | succ f ih =>
    rw [refreshLoop] at h
    cases ho : oracle attempt with
    | ok credentials =>
      rw [ho] at h
      simp only [List.mem_singleton] at h
      exact ⟨attempt, credentials, ho, h⟩
    | error e =>
      rw [ho] at h
      by_cases hig : isInvalidGrant e = true
      · simp [hig] at h
      · by_cases hf0 : f = 0
        · simp [hig, hf0] at h
        · simp only [hig, hf0, if_neg, Bool.false_eq_true, if_false] at h
          exact ih (attempt + 1) h

/-! ## Claim theorems -/

/-- C5: for every stored credential with `now < expiry - buffer` (the
fixed 5-minute safety margin), `refreshTokensIfNeeded` returns the
stored record unchanged and performs zero network calls: no refresh
attempt, no sleep, and no store write. -/
theorem c5_fresh_credential_unchanged (tokens : OAuthTokens) (now e : Int)
    (oracle : Nat → Except UpstreamError ServerCredentials)
    (hnow : 0 ≤ now) (hexp : tokens.expiry_date = some e)
    (hfresh : now < e - bufferMs) :
    refreshTokensIfNeeded tokens now oracle =
      { result := .ok tokens, attempts := 0, delays := [], writes := [] } := by
  simp only [bufferMs] at hfresh
  have he0 : ¬ e = 0 := by omega
  have hne : isTokenExpired now tokens = false := by
    simp only [isTokenExpired, hexp, bufferMs]
    rw [if_neg he0]
    simp only [decide_eq_false_iff_not]
    omega
  simp [refreshTokensIfNeeded, hne]

/-- Witness for C5 at a concrete fresh credential. -/
theorem c5_fresh_credential_witness :
    refreshTokensIfNeeded freshTokens 0 unusedOracle =
      { result := .ok freshTokens, attempts := 0, delays := [], writes := [] } :=
  c5_fresh_credential_unchanged freshTokens 0 1000000000 unusedOracle
    (by decide) (by decide) (by decide)

/-- C10: a stored credential whose `expiry_date` is absent or zero is
classified stale, and `refreshTokensIfNeeded` attempts a refresh (at
least one call to the refresh endpoint) rather than returning the
stored record unchanged. -/
theorem c10_falsy_expiry_stale (tokens : OAuthTokens) (now : Int)
    (oracle : Nat → Except UpstreamError ServerCredentials)
    (h : tokens.expiry_date = none ∨ tokens.expiry_date = some 0) :
    isTokenExpired now tokens = true ∧
      1 ≤ (refreshTokensIfNeeded tokens now oracle).attempts := by
  have hexp : isTokenExpired now tokens = true := by
    cases h with
    | inl h => simp [isTokenExpired, h]
    | inr h => simp [isTokenExpired, h]
  refine ⟨hexp, ?_⟩
  simp only [refreshTokensIfNeeded, hexp, if_true]
  exact refreshLoop_attempts_pos tokens now oracle 1 MAX_REFRESH_RETRIES (by decide)

/-- Witness for C10 at a concrete zero-expiry credential. -/
theorem c10_falsy_expiry_witness :
    isTokenExpired 12345 zeroExpiryTokens = true ∧
      1 ≤ (refreshTokensIfNeeded zeroExpiryTokens 12345 transientOracle).attempts :=
  c10_falsy_expiry_stale zeroExpiryTokens 12345 transientOracle (Or.inr rfl)

/-- C3: if the refresh endpoint reports an invalid grant on the first
attempt of a stale credential, the call fails with
`ReauthorizationRequired` after exactly one attempt: no retries, no
backoff sleep, no store write. -/
theorem c3_invalid_grant_immediate (tokens : OAuthTokens) (now : Int)
    (oracle : Nat → Except UpstreamError ServerCredentials) (e : UpstreamError)
    (hstale : isTokenExpired now tokens = true)
    (h1 : oracle 1 = .error e) (hig : isInvalidGrant e = true) :
    refreshTokensIfNeeded tokens now oracle =
      { result := .error (.reauthorizationRequired reauthRequiredMsg)
        attempts := 1, delays := [], writes := [] } := by
  simp only [refreshTokensIfNeeded, hstale, if_true]
  have hM : MAX_REFRESH_RETRIES = 2 + 1 := rfl
  rw [hM]
  exact refreshLoop_invalid_step tokens now oracle 1 2 e h1 hig

/-- Witness for C3 at a concrete invalid-grant response. -/
theorem c3_invalid_grant_witness :
    refreshTokensIfNeeded staleTokens 200000 invalidGrantOracle =
      { result := .error (.reauthorizationRequired reauthRequiredMsg)
        attempts := 1, delays := [], writes := [] } :=
  c3_invalid_grant_immediate staleTokens 200000 invalidGrantOracle
    { message := "invalid_grant", responseDataError := some "invalid_grant" }
    (by decide) rfl (by decide)

/-- C2 (counterexample): with a stale credential and a refresh endpoint
failing transiently on every attempt, the code performs its two
inter-attempt sleeps of 1000 ms and 2000 ms — not the claimed three
delays of 1s, 2s, 4s — and the error it throws is a fixed message that
does not carry the last underlying error ("network timeout"). -/
theorem c2_delays_counterexample :
    (refreshTokensIfNeeded staleTokens 200000 transientOracle).delays = [1000, 2000] ∧
    (refreshTokensIfNeeded staleTokens 200000 transientOracle).delays ≠ [1000, 2000, 4000] ∧
    (refreshTokensIfNeeded staleTokens 200000 transientOracle).attempts = 3 ∧
    (refreshTokensIfNeeded staleTokens 200000 transientOracle).result =
      .error (.refreshFailed refreshFailedMsg) ∧
    strIncludes refreshFailedMsg "network timeout" = false := by
  decide

/-- C2 (amended): if the refresh endpoint fails with a transient
(non-invalid-grant) error on every attempt, exactly
`MAX_REFRESH_RETRIES = 3` refresh attempts occur, separated by the two
inter-attempt sleeps of 1000 ms and 2000 ms (there is no 4s delay: with
three attempts only two gaps exist), and the call then fails with
`RefreshFailed` carrying the fixed exhaustion message — the last
underlying error is logged, not attached. No store write occurs. -/
theorem c2_retry_exhaustion_amended (tokens : OAuthTokens) (now : Int)
    (oracle : Nat → Except UpstreamError ServerCredentials)
    (hstale : isTokenExpired now tokens = true)
    (htrans : ∀ k, 1 ≤ k → k ≤ MAX_REFRESH_RETRIES →
      ∃ e, oracle k = .error e ∧ isInvalidGrant e = false) :
    refreshTokensIfNeeded tokens now oracle =
      { result := .error (.refreshFailed refreshFailedMsg)
        attempts := 3, delays := [1000, 2000], writes := [] } := by
  obtain ⟨e1, h1, hg1⟩ := htrans 1 (by decide) (by decide)
  obtain ⟨e2, h2, hg2⟩ := htrans 2 (by decide) (by decide)
  obtain ⟨e3, h3, hg3⟩ := htrans 3 (by decide) (by decide)
  simp only [refreshTokensIfNeeded, hstale, if_true]
  have hM : MAX_REFRESH_RETRIES = 2 + 1 := rfl
  rw [hM]
  rw [refreshLoop_transient_step tokens now oracle 1 2 e1 h1 hg1 (by decide)]
  have h2step : (2 : Nat) = 1 + 1 := rfl
  rw [h2step]
  rw [refreshLoop_transient_step tokens now oracle 2 1 e2 h2 hg2 (by decide)]
  rw [refreshLoop_transient_last tokens now oracle 3 e3 h3 hg3]
  simp [RETRY_DELAY_MS]

/-- Witness for the amended C2 at a concrete all-transient endpoint. -/
theorem c2_retry_exhaustion_witness :
    refreshTokensIfNeeded staleTokens 200000 transientOracle =
      { result := .error (.refreshFailed refreshFailedMsg)
        attempts := 3, delays := [1000, 2000], writes := [] } :=
  c2_retry_exhaustion_amended staleTokens 200000 transientOracle (by decide)
    (fun k _ _ =>
      ⟨{ message := "network timeout", responseDataError := none }, rfl, by decide⟩)

/-- C4: whenever `refreshTokensIfNeeded` succeeds and the refresh
endpoint returned no new `refresh_token` in any successful response,
the record it returns — and every record it persists via
`storeTokens` — has a `refresh_token` equal to the originally stored
one, unchanged. -/
theorem c4_refresh_token_preserved (tokens : OAuthTokens) (now : Int)
    (oracle : Nat → Except UpstreamError ServerCredentials) (r : OAuthTokens)
    (hnone : ∀ k c, oracle k = .ok c → c.refresh_token = none)
    (hok : (refreshTokensIfNeeded tokens now oracle).result = .ok r) :
    r.refresh_token = tokens.refresh_token ∧
      ∀ w ∈ (refreshTokensIfNeeded tokens now oracle).writes,
        w.refresh_token = tokens.refresh_token := by
  by_cases hstale : isTokenExpired now tokens = true
  · simp only [refreshTokensIfNeeded, hstale, if_true] at hok ⊢
    constructor
    · obtain ⟨k, c, hkc, hr⟩ :=
        refreshLoop_ok tokens now oracle 1 MAX_REFRESH_RETRIES r hok

      rw [hr]
      simp [buildRefreshedTokens, jsOr, hnone k c hkc]
    · intro w hw
      obtain ⟨k, c, hkc, hwe⟩ :=
        refreshLoop_writes tokens now oracle 1 MAX_REFRESH_RETRIES w hw
      rw [hwe]
      simp [buildRefreshedTokens, jsOr, hnone k c hkc]
  · simp only [Bool.not_eq_true] at hstale
    simp only [refreshTokensIfNeeded, hstale, Bool.false_eq_true, if_false] at hok ⊢
    simp only [Except.ok.injEq] at hok
    subst hok
    simp

/-- Witness for C4 at a concrete success response with no rotated
refresh token: the original refresh token "rt-orig" survives. -/
theorem c4_refresh_token_preserved_witness :
    (buildRefreshedTokens staleTokens 200000
        { access_token := some "at-new", refresh_token := none
          scope := none, token_type := none, expiry_date := none }).refresh_token =
      staleTokens.refresh_token ∧
    ∀ w ∈ (refreshTokensIfNeeded staleTokens 200000 successNoRotateOracle).writes,
      w.refresh_token = staleTokens.refresh_token :=
  c4_refresh_token_preserved staleTokens 200000 successNoRotateOracle
    (buildRefreshedTokens staleTokens 200000
      { access_token := some "at-new", refresh_token := none
        scope := none, token_type := none, expiry_date := none })
    (fun k c h => by
      simp only [successNoRotateOracle, Except.ok.injEq] at h
      rw [← h])
    (by decide)

/-- C9 (invariant): every record `refreshTokensIfNeeded` hands to
`storeTokens` carries a `refresh_token` that is either the previously
stored one or one the refresh endpoint returned in the successful
response — the refresh token is never discarded or replaced by anything
else. -/
theorem c9_refresh_token_invariant (tokens : OAuthTokens) (now : Int)
    (oracle : Nat → Except UpstreamError ServerCredentials) (w : OAuthTokens)
    (hw : w ∈ (refreshTokensIfNeeded tokens now oracle).writes) :
    w.refresh_token = tokens.refresh_token ∨
      ∃ k c, oracle k = .ok c ∧ c.refresh_token = some w.refresh_token := by
  by_cases hstale : isTokenExpired now tokens = true
  · simp only [refreshTokensIfNeeded, hstale, if_true] at hw
    obtain ⟨k, c, hkc, hwe⟩ :=
      refreshLoop_writes tokens now oracle 1 MAX_REFRESH_RETRIES w hw
    subst hwe
    cases hc : c.refresh_token with
    | none => left; simp [buildRefreshedTokens, jsOr, hc]
    | some s =>
      by_cases hs : s = ""
      · left; simp [buildRefreshedTokens, jsOr, hc, hs]
      · right
        exact ⟨k, c, hkc, by simp [buildRefreshedTokens, jsOr, hc, hs]⟩
  · simp only [Bool.not_eq_true] at hstale
    simp only [refreshTokensIfNeeded, hstale, Bool.false_eq_true, if_false] at hw
    simp at hw

/-- Witness for C9: the concrete write performed after a successful
refresh with no rotated token keeps the original refresh token. -/
theorem c9_refresh_token_invariant_witness :
    (buildRefreshedTokens staleTokens 200000
        { access_token := some "at-new", refresh_token := none
          scope := none, token_type := none, expiry_date := none }).refresh_token =
      staleTokens.refresh_token ∨
      ∃ k c, successNoRotateOracle k = .ok c ∧
        c.refresh_token = some (buildRefreshedTokens staleTokens 200000
          { access_token := some "at-new", refresh_token := none
            scope := none, token_type := none, expiry_date := none }).refresh_token :=
  c9_refresh_token_invariant staleTokens 200000 successNoRotateOracle
    (buildRefreshedTokens staleTokens 200000
      { access_token := some "at-new", refresh_token := none
        scope := none, token_type := none, expiry_date := none })
    (by decide)

/-- C6 (counterexample): on a stale credential, a successful refresh
whose response carries an expiry EARLIER than the stored one (300000 vs
400000) produces a new record whose expiry is NOT strictly greater than
the old one — the code adopts the server-supplied `expiry_date`
verbatim. -/
theorem c6_expiry_counterexample :
    isTokenExpired 200000 staleTokens = true ∧
    1 ≤ (refreshTokensIfNeeded staleTokens 200000 earlyExpiryOracle).attempts ∧
    (refreshTokensIfNeeded staleTokens 200000 earlyExpiryOracle).result =
      .ok { access_token := "at-new", refresh_token := "rt-orig", scope := "cal"
            token_type := "Bearer", expiry_date := some 300000 } ∧
    staleTokens.expiry_date = some 400000 ∧
    ¬ ((300000 : Int) > 400000) := by
  decide

/-- C6 (amended): for every stale stored credential a refresh is
attempted at least once; when the refresh succeeds and the server
supplied no `expiry_date`, the new record's expiry defaults to
`now + 1 hour`, which is strictly greater than the old expiry. (A
server-supplied `expiry_date` is adopted verbatim and need not exceed
the old one.) -/
theorem c6_stale_refresh_amended (tokens : OAuthTokens) (now e : Int)
    (oracle : Nat → Except UpstreamError ServerCredentials) (r : OAuthTokens)
    (hnow : 0 ≤ now) (hexp : tokens.expiry_date = some e)
    (hstale : isTokenExpired now tokens = true) :
    1 ≤ (refreshTokensIfNeeded tokens now oracle).attempts ∧
    ((refreshTokensIfNeeded tokens now oracle).result = .ok r →
      (∀ k c, oracle k = .ok c → c.expiry_date = none) →
      r.expiry_date = some (now + 3600 * 1000) ∧ e < now + 3600 * 1000) := by
  constructor
  · simp only [refreshTokensIfNeeded, hstale, if_true]
    exact refreshLoop_attempts_pos tokens now oracle 1 MAX_REFRESH_RETRIES (by decide)
  · intro hok hnone
    simp only [refreshTokensIfNeeded, hstale, if_true] at hok
    obtain ⟨k, c, hkc, hr⟩ :=
      refreshLoop_ok tokens now oracle 1 MAX_REFRESH_RETRIES r hok
    have hce := hnone k c hkc
    refine ⟨by rw [hr]; simp [buildRefreshedTokens, jsOrInt, hce], ?_⟩
    simp only [isTokenExpired, hexp, bufferMs] at hstale
    by_cases he0 : e = 0
    · omega
    · rw [if_neg he0] at hstale
      simp only [decide_eq_true_eq] at hstale
      omega

/-- Witness for the amended C6: a stale credential, a success response
with no `expiry_date`, a new expiry of `now + 1h` strictly above the
old 400000. -/
theorem c6_stale_refresh_witness :
    1 ≤ (refreshTokensIfNeeded staleTokens 200000 successNoRotateOracle).attempts ∧
    ((buildRefreshedTokens staleTokens 200000
        { access_token := some "at-new", refresh_token := none
          scope := none, token_type := none, expiry_date := none }).expiry_date =
      some (200000 + 3600 * 1000) ∧ (400000 : Int) < 200000 + 3600 * 1000) := by
  have h := c6_stale_refresh_amended staleTokens 200000 400000 successNoRotateOracle
    (buildRefreshedTokens staleTokens 200000
      { access_token := some "at-new", refresh_token := none
        scope := none, token_type := none, expiry_date := none })
    (by decide) rfl (by decide)
  exact ⟨h.1, h.2 (by decide)
    (fun k c hk => by
      simp only [successNoRotateOracle, Except.ok.injEq] at hk
      rw [← hk])⟩

/-- C7: `storeTokens` is an idempotent overwrite — calling it twice in
succession with the same credential record leaves the backing store in
the same observable state as calling it once (in every environment:
unconfigured, failing set, or successful set). -/
theorem c7_storeTokens_idempotent (env : StoreEnv) (iso1 iso2 : String)
    (store : Option TokenStorageData) (tokens : OAuthTokens) :
    (storeTokensRun env iso2 (storeTokensRun env iso1 store tokens).2 tokens).2 =
      (storeTokensRun env iso2 store tokens).2 := by
  obtain ⟨rc, cid, ss⟩ := env
  cases rc <;> cases ss <;> simp [storeTokensRun]

/-- C8: a response-cache read never raises — an unconfigured backing
store, and a backing store whose read errors, both yield a miss
(`none`); and a response-cache write is best-effort — no backing-store
error is ever surfaced to the caller. -/
theorem c8_cache_soft_fail (α σ : Type)
    (backendGet : String → BackendReadResult α) (cacheKey : String) (e : String)
    (configured : Bool) (backendSetex : String → Nat → α → Except String σ)
    (store : σ) (data : α) :
    getCachedCalendar false backendGet cacheKey = none ∧
    (backendGet (CACHE_KEY_HEAD ++ cacheKey) = .err e →
      getCachedCalendar true backendGet cacheKey = none) ∧
    (setCachedCalendar configured backendSetex store cacheKey data).surfacedError =
      none := by
  refine ⟨rfl, ?_, ?_⟩
  · intro h
    simp [getCachedCalendar, h]
  · cases h : backendSetex (CACHE_KEY_HEAD ++ cacheKey) CACHE_TTL_SECONDS data <;>
      cases configured <;> simp [setCachedCalendar, h]

/-- Witness for C8 at a concrete always-erroring backing store. -/
theorem c8_cache_soft_fail_witness :
    getCachedCalendar false
      (fun _ => (BackendReadResult.err "read failed" : BackendReadResult Nat)) "k" =
      none ∧
    getCachedCalendar true
      (fun _ => (BackendReadResult.err "read failed" : BackendReadResult Nat)) "k" =
      none ∧
    (setCachedCalendar true
        (fun _ _ _ => (Except.error "write failed" : Except String Nat))
        (0 : Nat) "k" (5 : Nat)).surfacedError = none := by
  have h := c8_cache_soft_fail Nat Nat
    (fun _ => BackendReadResult.err "read failed") "k" "read failed" true
    (fun _ _ _ => Except.error "write failed") 0 5
  exact ⟨h.1, h.2.1 rfl, h.2.2⟩

/-- C1 (failing-input evaluation): in a state where a non-expired cache
entry exists under the key derived from the configured account
(`primary`) and the date `2026-01-26`, `getEventsForDate "2026-01-26"`
performs no cache read at all, one credential lookup and one upstream
Calendar API call, and returns the upstream payload rather than the
cached one — the source of `api/static-calendar-enhanced.ts` never
consults the response cache, contradicting the repository's own
`CACHING.md`. -/
theorem c1_cache_bypassed_evidence :
    c1Cache (CACHE_KEY_HEAD ++ generateCacheKey "primary" "2026-01-26") =
      some c1CachedPayload ∧
    c1Run.cacheReads = 0 ∧
    c1Run.credentialLookups = 1 ∧
    c1Run.upstreamCalls = 1 ∧
    c1Run.response = .ok { events := [], date := "2026-01-26" } ∧
    c1Run.response ≠ .ok c1CachedPayload := by
  decide

end ReTerminal
